import Mathlib

/-!
Shallow embedding of the sweep-timing and event-trigger engine of
`src/AstroSonar.jsx` (a rotating sonar sweep over a fixed astrological
chart that triggers notes when the sweep crosses a planet's angle),
together with proofs of the specified properties.

Numbers are modelled as rationals; the JavaScript `%` operator
(truncated remainder) is embedded explicitly as `jsMod`.
-/

namespace AstroSonar

/-- Truncation toward zero, as JavaScript division underlying `%` behaves. -/
def jsTrunc (q : ℚ) : ℤ := if 0 ≤ q then ⌊q⌋ else ⌈q⌉

/-- JavaScript remainder `x % y` (sign follows the dividend). -/
def jsMod (x y : ℚ) : ℚ := x - y * (jsTrunc (x / y) : ℚ)

/-- Embedding of `const wrapDeg = (d) => ((d % 360) + 360) % 360;`. -/
def wrapDeg (d : ℚ) : ℚ := jsMod (jsMod d 360 + 360) 360

/-- Embedding of `crossed(prev, curr, target)` from the source:
normalizes all three angles and tests the clockwise half-open interval,
with the wrap-around case when `prev > curr`. -/
def crossed (prev curr target : ℚ) : Bool :=
  let p := wrapDeg prev
  let c := wrapDeg curr
  let t := wrapDeg target
  if p ≤ c then decide (p < t ∧ t ≤ c)
  else decide (t > p ∨ t ≤ c)

/-! Data model: the fixed chart bodies, the scale, and the sound library. -/

/-- One chart body of the `PLANETS` table: key, glyph, fixed degree, and the
default instrument. -/
structure Planet where
  key : String
  glyph : String
  deg : ℚ
  instrument : String
deriving DecidableEq, Repr

/-- Embedding of the `PLANETS` table (fixed degrees and default instruments). -/
def PLANETS : List Planet := [
  { key := "Sun", glyph := "☉", deg := 311.59, instrument := "lead" },
  { key := "Moon", glyph := "☽", deg := 52.1, instrument := "pad" },
  { key := "Mercury", glyph := "☿", deg := 317.52, instrument := "arp" },
  { key := "Venus", glyph := "♀", deg := 358.29, instrument := "bell" },
  { key := "Mars", glyph := "♂", deg := 100.01, instrument := "snare" },
  { key := "Jupiter", glyph := "♃", deg := 194.41, instrument := "bass" },
  { key := "Saturn", glyph := "♄", deg := 319.52, instrument := "pad" },
  { key := "Uranus", glyph := "♅", deg := 289.29, instrument := "hat" },
  { key := "Neptune", glyph := "♆", deg := 289.31, instrument := "hat" },
  { key := "Pluto", glyph := "♇", deg := 235.21, instrument := "tom" },
  { key := "Lilith", glyph := "⚸", deg := 351.59, instrument := "clap" },
  { key := "NNode", glyph := "☊", deg := 260.15, instrument := "bell" },
  { key := "Asc", glyph := "ASC", deg := 171.45, instrument := "kick" },
  { key := "MC", glyph := "MC", deg := 78.8, instrument := "lead" }]

/-- Embedding of `ORIGINAL_INSTRUMENTS`: the startup planet-to-instrument map,
kept for hard reset. -/
def ORIGINAL_INSTRUMENTS : List (String × String) :=
  PLANETS.map fun p => (p.key, p.instrument)

/-- Embedding of the `SCALE` note table. -/
def SCALE : List String := [
  "G3", "A3", "B3", "D4", "E4",
  "G4", "A4", "B4", "D5", "E5",
  "G5", "A5", "B5", "D6", "E6"]

/-- Embedding of `pick`: `SCALE[(i % SCALE.length + SCALE.length) % SCALE.length]`.
The indices used by the program are natural numbers, so the JavaScript remainder
coincides with `Nat.mod`. -/
def pick (i : ℕ) : String :=
  SCALE.getD ((i % SCALE.length + SCALE.length) % SCALE.length) ("")

/-- Embedding of the keys of `SOUND_LIBRARY` (each key gets a prebuilt synth
node when the audio graph is built). -/
def SOUND_LIBRARY : List String :=
  ["kick", "snare", "clap", "hat", "tom", "bass", "lead",
   "arp", "pad", "bell", "pluck", "pulse", "blip"]

/-- A per-planet synth slot, as stored in `synthsRef`: the currently selected
instrument key and the set of instrument keys that have a prebuilt node.
A JavaScript `undefined` entry is modelled by a key absent from `nodes`. -/
structure Slot where
  current : String
  nodes : List String
deriving DecidableEq, Repr

/-- The mutable state of the component: React state (`running`, `bpm`,
`angle`, the four FX wet levels) and the refs used by the animation loop and
the audio graph (`baseTimeRef` in seconds, `baseAngleRef`, `prevAngleRef`,
`builtRef`, `instrumentMap`, `synthsRef`). -/
structure AppState where
  running : Bool
  bpm : ℚ
  angle : ℚ
  distWet : ℚ
  filtWet : ℚ
  delWet : ℚ
  revWet : ℚ
  baseTime : Option ℚ
  baseAngle : ℚ
  prevAngle : ℚ
  built : Bool
  instrumentMap : List (String × String)
  synths : List (String × Slot)
deriving Repr

/-- The component's initial state: stopped, 60 BPM, angle 0, default FX wet
levels, no base timestamp, audio graph not yet built. -/
def initialState : AppState where
  running := false
  bpm := 60
  angle := 0
  distWet := 0.15
  filtWet := 0.10
  delWet := 0.18
  revWet := 0.12
  baseTime := none
  baseAngle := 0
  prevAngle := 0
  built := false
  instrumentMap := PLANETS.map fun p => (p.key, p.instrument)
  synths := []

/-- Embedding of `const tempo = 360 * (bpm / 60)` (degrees per second). -/
def tempo (bpm : ℚ) : ℚ := 360 * (bpm / 60)

/-- Embedding of `buildGraph`: a no-op when already built; otherwise builds,
for every planet, a slot whose current instrument comes from `instrumentMap`
and whose nodes cover the whole sound library. -/
def buildGraph (s : AppState) : AppState :=
  if s.built then s
  else
    { s with
      built := true
      synths := PLANETS.map fun p =>
        (p.key,
         { current := ((s.instrumentMap.lookup p.key).getD ("undefined"))
           nodes := SOUND_LIBRARY }) }

/-- The dispatcher embedded from the loop body
`PLANETS.forEach((p, idx) => { if (crossed(prev, curr, p.deg)) triggerPlanet(p, idx); })`:
the list of `(body, index)` trigger invocations for one frame. -/
def dispatch (chart : List Planet) (prev curr : ℚ) : List (Planet × ℕ) :=
  (chart.enum.filter fun ip => crossed prev curr ip.2.deg).map fun ip => (ip.2, ip.1)

/-- Embedding of one call of the animation loop callback `loop(ts)` (`ts` in
milliseconds): rebases the timestamp on the first frame after (re)start,
computes the current angle from elapsed time and tempo, dispatches the
crossing triggers when the audio graph is built, and stores the new angle.
Returns the updated state together with the trigger invocations. -/
def frame (s : AppState) (ts : ℚ) : AppState × List (Planet × ℕ) :=
  let secs := ts / 1000
  let t0 := s.baseTime.getD secs
  let curr := wrapDeg (s.baseAngle + (secs - t0) * tempo s.bpm)
  let prev := s.prevAngle
  let trigs := if s.built then dispatch PLANETS prev curr else []
  ({ s with baseTime := some t0, prevAngle := curr, angle := curr }, trigs)

/-- One audio-scheduling action issued by `triggerPlanet` (the arguments of a
`triggerAttackRelease`, or the attack/release pair of the pluck voice). -/
inductive AudioCmd where
  | attackRelease (args : List String)
  | attack (note : String)
  | release
deriving DecidableEq, Repr

/-- The notes scheduled by the `switch (slot.current)` body of `triggerPlanet`
for a given instrument kind and planet index. -/
def noteCmds (instr : String) (idx : ℕ) : List AudioCmd :=
  let note := pick ((idx * 3) % SCALE.length)
  match instr with
  | "kick" => [.attackRelease ["G1", "8n"]]
  | "snare" => [.attackRelease ["16n"]]
  | "clap" => [.attackRelease ["16n"]]
  | "hat" => [.attackRelease ["32n"]]
  | "tom" => [.attackRelease ["D2", "16n"]]
  | "bass" => [.attackRelease [pick 0, "8n"]]
  | "lead" => [.attackRelease [note, "8n"]]
  | "arp" => [.attackRelease [pick (idx + 2), "16n"]]
  | "pad" => [.attackRelease [pick (idx + 4), "4n"]]
  | "bell" => [.attackRelease [pick (idx + 6), "8n"]]
  | "pluck" => [.attack note, .release]
  | "pulse" => [.attackRelease [note, "8n"]]
  | "blip" => [.attackRelease ["E6", "32n"]]
  | _ => [.attackRelease [note, "8n"]]

/-- Embedding of `triggerPlanet(p, idx)`: look up the planet's synth slot
(returning nothing when absent), look up the prebuilt node of the currently
selected instrument (returning nothing when absent), and otherwise schedule
the instrument's notes.  The function has no state output because the source
function mutates nothing. -/
def triggerPlanet (synths : List (String × Slot)) (p : Planet) (idx : ℕ) :
    List AudioCmd :=
  match synths.lookup p.key with
  | none => []
  | some slot =>
    if slot.nodes.contains slot.current then noteCmds slot.current idx else []

/-- Embedding of `handlePlayPause`: when stopped, build the audio graph, clear
the base timestamp, rebase the previous angle, and start; when running, freeze
the current angle into `baseAngleRef` and stop. -/
def handlePlayPause (s : AppState) : AppState :=
  if s.running then
    { s with baseAngle := s.angle, running := false }
  else
    let s1 := buildGraph s
    { s1 with baseTime := none, prevAngle := s1.baseAngle, running := true }

/-- Embedding of `reset`: zero the angle state, restore 60 BPM, restore the
startup instrument mapping (both the map and every existing slot), restore the
four FX wet levels, build the audio graph when not yet built, and, when
running, clear the base timestamp and rebase the previous angle. -/
def reset (s : AppState) : AppState :=
  let s1 :=
    { s with
      baseAngle := 0
      prevAngle := 0
      angle := 0
      bpm := 60
      instrumentMap := ORIGINAL_INSTRUMENTS
      synths := s.synths.map fun ks =>
        (ks.1, { ks.2 with current := ((ORIGINAL_INSTRUMENTS.lookup ks.1).getD ("undefined")) })
      distWet := 0.15
      filtWet := 0.10
      delWet := 0.18
      revWet := 0.12 }
  let s2 := buildGraph s1
  if s2.running then { s2 with baseTime := none, prevAngle := s2.baseAngle } else s2

/-- Embedding of the BPM slider `onChange` handler (`setBpm`). -/
def setBpm (s : AppState) (v : ℚ) : AppState := { s with bpm := v }

/-- Embedding of the distortion wet slider handler. -/
def setDistWet (s : AppState) (v : ℚ) : AppState := { s with distWet := v }

/-- Embedding of the filter wet slider handler. -/
def setFiltWet (s : AppState) (v : ℚ) : AppState := { s with filtWet := v }

/-- Embedding of the delay wet slider handler. -/
def setDelWet (s : AppState) (v : ℚ) : AppState := { s with delWet := v }

/-- Embedding of the reverb wet slider handler. -/
def setRevWet (s : AppState) (v : ℚ) : AppState := { s with revWet := v }

/-- One user- or scheduler-driven transition of the component: an animation
frame (possible only while running), the play/pause button, the reset button,
or one of the sliders. -/
inductive Step : AppState → AppState → Prop where
  | frame (s : AppState) (ts : ℚ) (h : s.running = true) : Step s (frame s ts).1
  | playPause (s : AppState) : Step s (handlePlayPause s)
  | reset (s : AppState) : Step s (AstroSonar.reset s)
  | setBpm (s : AppState) (v : ℚ) : Step s (AstroSonar.setBpm s v)
  | setDistWet (s : AppState) (v : ℚ) : Step s (AstroSonar.setDistWet s v)
  | setFiltWet (s : AppState) (v : ℚ) : Step s (AstroSonar.setFiltWet s v)
  | setDelWet (s : AppState) (v : ℚ) : Step s (AstroSonar.setDelWet s v)
  | setRevWet (s : AppState) (v : ℚ) : Step s (AstroSonar.setRevWet s v)

/-- States reachable from the initial state by any sequence of transitions. -/
inductive Reachable : AppState → Prop where
  | init : Reachable initialState
  | step {s t : AppState} : Reachable s → Step s t → Reachable t

/-- A concrete running state: the result of pressing Play in the initial
state. -/
def runningEx : AppState := handlePlayPause initialState

/-- A concrete clock state used to exercise the elapsed-time formula: running
at 5 BPM (30 degrees per second), base angle 0, base timestamp 0 seconds. -/
def clockEx : AppState :=
  { initialState with running := true, bpm := 5, baseTime := some 0 }

/-- A sample chart body at 15 degrees. -/
def planetA : Planet :=
  { key := "A", glyph := "a", deg := 15, instrument := "lead" }

/-- A second sample chart body at the same 15 degrees. -/
def planetB : Planet :=
  { key := "B", glyph := "b", deg := 15, instrument := "bell" }

/-- The first entry of the `PLANETS` table. -/
def sunPlanet : Planet :=
  { key := "Sun", glyph := "☉", deg := 311.59, instrument := "lead" }

/-! Properties of the wrap helper. -/

lemma jsTrunc_of_nonneg {q : ℚ} (h : 0 ≤ q) : jsTrunc q = ⌊q⌋ := if_pos h

lemma jsTrunc_of_neg {q : ℚ} (h : ¬ 0 ≤ q) : jsTrunc q = ⌈q⌉ := if_neg h

/-- The inner remainder `d % 360` lies in `(-360, 360)` and differs from `d`
by an integer multiple of `360`. -/
lemma jsMod360_bounds (x : ℚ) :
    -360 < jsMod x 360 ∧ jsMod x 360 < 360 ∧ ∃ n : ℤ, jsMod x 360 = x - 360 * n := by
  unfold jsMod
  by_cases h : 0 ≤ x / 360
  · rw [jsTrunc_of_nonneg h]
    refine ⟨?_, ?_, ⟨⌊x / 360⌋, rfl⟩⟩
    · have h1 : (⌊x / 360⌋ : ℚ) ≤ x / 360 := Int.floor_le _
      nlinarith
    · have h2 : x / 360 < ⌊x / 360⌋ + 1 := Int.lt_floor_add_one _
      nlinarith
  · rw [jsTrunc_of_neg h]
    refine ⟨?_, ?_, ⟨⌈x / 360⌉, rfl⟩⟩
    · have h1 : (⌈x / 360⌉ : ℚ) < x / 360 + 1 := Int.ceil_lt_add_one _
      nlinarith
    · have h2 : x / 360 ≤ ⌈x / 360⌉ := Int.le_ceil _
      nlinarith

/-- For a nonnegative argument the remainder step is the floor-based one. -/
lemma jsMod360_of_nonneg (a : ℚ) (h : 0 ≤ a) :
    jsMod a 360 = a - 360 * ⌊a / 360⌋ := by
  unfold jsMod
  rw [jsTrunc_of_nonneg (by positivity)]

/-- The value of `wrapDeg` lies in `[0, 360)` and differs from the input by an
integer multiple of `360`. -/
lemma wrapDeg_spec (x : ℚ) :
    0 ≤ wrapDeg x ∧ wrapDeg x < 360 ∧ ∃ n : ℤ, wrapDeg x = x - 360 * n := by
  obtain ⟨hlo, hhi, n, hn⟩ := jsMod360_bounds x
  set r := jsMod x 360 with hr
  have ha : (0 : ℚ) ≤ r + 360 := by linarith
  have hw : wrapDeg x = (r + 360) - 360 * ⌊(r + 360) / 360⌋ := by
    unfold wrapDeg
    rw [← hr, jsMod360_of_nonneg _ ha]
  have hfr : (r + 360) - 360 * ⌊(r + 360) / 360⌋ = 360 * Int.fract ((r + 360) / 360) := by
    rw [Int.fract]
    field_simp
  refine ⟨?_, ?_, ⟨n - 1 + ⌊(r + 360) / 360⌋, ?_⟩⟩
  · rw [hw, hfr]
    have := Int.fract_nonneg ((r + 360) / 360)
    positivity
  · rw [hw, hfr]
    have := Int.fract_lt_one ((r + 360) / 360)
    nlinarith
  · rw [hw, hn]
    push_cast
    ring

lemma wrapDeg_nonneg (x : ℚ) : 0 ≤ wrapDeg x := (wrapDeg_spec x).1

lemma wrapDeg_lt (x : ℚ) : wrapDeg x < 360 := (wrapDeg_spec x).2.1

/-- Two values of `[0, 360)` differing by an integer multiple of `360` are
equal. -/
lemma eq_of_sub_int_mul {a b : ℚ} (ha0 : 0 ≤ a) (ha1 : a < 360)
    (hb0 : 0 ≤ b) (hb1 : b < 360) {n : ℤ} (h : a - b = 360 * n) : a = b := by
  have h1 : (n : ℚ) < 1 := by nlinarith
  have h2 : (-1 : ℚ) < (n : ℚ) := by nlinarith
  have h3 : n < 1 := by exact_mod_cast h1
  have h4 : -1 < n := by exact_mod_cast h2
  have h5 : n = 0 := by omega
  rw [h5] at h
  push_cast at h
  linarith

/-- The function `wrapDeg` is invariant under shifting by integer multiples of
`360`. -/
lemma wrapDeg_add_int_mul (x : ℚ) (k : ℤ) : wrapDeg (x + 360 * k) = wrapDeg x := by
  obtain ⟨ha0, ha1, n, hn⟩ := wrapDeg_spec (x + 360 * k)
  obtain ⟨hb0, hb1, m, hm⟩ := wrapDeg_spec x
  refine eq_of_sub_int_mul ha0 ha1 hb0 hb1 (n := k - n + m) ?_
  rw [hn, hm]
  push_cast
  ring

/-- An angle already in `[0, 360)` is fixed by `wrapDeg`. -/
lemma wrapDeg_eq_self {a : ℚ} (h0 : 0 ≤ a) (h1 : a < 360) : wrapDeg a = a := by
  obtain ⟨hb0, hb1, n, hn⟩ := wrapDeg_spec a
  refine eq_of_sub_int_mul hb0 hb1 h0 h1 (n := -n) ?_
  push_cast
  linarith

/-- Reduction of `crossed` when all three raw angles are already normalized. -/
lemma crossed_in_range {p c t : ℚ} (hp0 : 0 ≤ p) (hp1 : p < 360)
    (hc0 : 0 ≤ c) (hc1 : c < 360) (ht0 : 0 ≤ t) (ht1 : t < 360) :
    crossed p c t =
      if p ≤ c then decide (p < t ∧ t ≤ c) else decide (t > p ∨ t ≤ c) := by
  unfold crossed
  rw [wrapDeg_eq_self hp0 hp1, wrapDeg_eq_self hc0 hc1, wrapDeg_eq_self ht0 ht1]

lemma crossed_10_20_15 : crossed 10 20 15 = true := by
  rw [crossed_in_range (by norm_num) (by norm_num) (by norm_num) (by norm_num)
    (by norm_num) (by norm_num)]
  norm_num

/-! Field computations for `buildGraph` and `reset`. -/

lemma buildGraph_running (s : AppState) : (buildGraph s).running = s.running := by
  unfold buildGraph
  split <;> rfl

lemma buildGraph_bpm (s : AppState) : (buildGraph s).bpm = s.bpm := by
  unfold buildGraph
  split <;> rfl

lemma buildGraph_angle (s : AppState) : (buildGraph s).angle = s.angle := by
  unfold buildGraph
  split <;> rfl

lemma buildGraph_baseTime (s : AppState) : (buildGraph s).baseTime = s.baseTime := by
  unfold buildGraph
  split <;> rfl

lemma buildGraph_baseAngle (s : AppState) : (buildGraph s).baseAngle = s.baseAngle := by
  unfold buildGraph
  split <;> rfl

lemma buildGraph_prevAngle (s : AppState) : (buildGraph s).prevAngle = s.prevAngle := by
  unfold buildGraph
  split <;> rfl

lemma buildGraph_built (s : AppState) : (buildGraph s).built = true := by
  unfold buildGraph
  split
  · assumption
  · rfl

lemma buildGraph_instrumentMap (s : AppState) :
    (buildGraph s).instrumentMap = s.instrumentMap := by
  unfold buildGraph
  split <;> rfl

lemma buildGraph_distWet (s : AppState) : (buildGraph s).distWet = s.distWet := by
  unfold buildGraph
  split <;> rfl

lemma buildGraph_filtWet (s : AppState) : (buildGraph s).filtWet = s.filtWet := by
  unfold buildGraph
  split <;> rfl

lemma buildGraph_delWet (s : AppState) : (buildGraph s).delWet = s.delWet := by
  unfold buildGraph
  split <;> rfl

lemma buildGraph_revWet (s : AppState) : (buildGraph s).revWet = s.revWet := by
  unfold buildGraph
  split <;> rfl

lemma reset_running (s : AppState) : (reset s).running = s.running := by
  unfold reset
  dsimp only
  split <;> simp [buildGraph_running]

lemma reset_bpm (s : AppState) : (reset s).bpm = 60 := by
  unfold reset
  dsimp only
  split <;> simp [buildGraph_bpm]

lemma reset_angle (s : AppState) : (reset s).angle = 0 := by
  unfold reset
  dsimp only
  split <;> simp [buildGraph_angle]

lemma reset_baseAngle (s : AppState) : (reset s).baseAngle = 0 := by
  unfold reset
  dsimp only
  split <;> simp [buildGraph_baseAngle]

lemma reset_prevAngle (s : AppState) : (reset s).prevAngle = 0 := by
  unfold reset
  dsimp only
  split <;> simp [buildGraph_baseAngle, buildGraph_prevAngle]

lemma reset_baseTime_of_running (s : AppState) (h : s.running = true) :
    (reset s).baseTime = none := by
  unfold reset
  dsimp only
  split
  · rfl
  · next hneg => rw [buildGraph_running] at hneg; simp [h] at hneg

lemma reset_built (s : AppState) : (reset s).built = true := by
  unfold reset
  dsimp only
  split <;> simp [buildGraph_built]

lemma reset_instrumentMap (s : AppState) :
    (reset s).instrumentMap = ORIGINAL_INSTRUMENTS := by
  unfold reset
  dsimp only
  split <;> simp [buildGraph_instrumentMap]

lemma reset_distWet (s : AppState) : (reset s).distWet = 0.15 := by
  unfold reset
  dsimp only
  split <;> simp [buildGraph_distWet]

lemma reset_filtWet (s : AppState) : (reset s).filtWet = 0.10 := by
  unfold reset
  dsimp only
  split <;> simp [buildGraph_filtWet]

lemma reset_delWet (s : AppState) : (reset s).delWet = 0.18 := by
  unfold reset
  dsimp only
  split <;> simp [buildGraph_delWet]

lemma reset_revWet (s : AppState) : (reset s).revWet = 0.12 := by
  unfold reset
  dsimp only
  split <;> simp [buildGraph_revWet]

/-- The synths map after a reset, by whether the graph already existed. -/
lemma reset_synths (s : AppState) : (reset s).synths =
    if s.built then
      s.synths.map fun ks =>
        (ks.1, { ks.2 with current := ((ORIGINAL_INSTRUMENTS.lookup ks.1).getD ("undefined")) })
    else
      PLANETS.map fun p =>
        (p.key,
         { current := ((ORIGINAL_INSTRUMENTS.lookup p.key).getD ("undefined"))
           nodes := SOUND_LIBRARY }) := by
  unfold reset buildGraph
  dsimp only
  cases hb : s.built <;> simp [hb] <;> split <;> rfl

/-- Looking a key up in a synths map whose slot currents were rewritten from
the startup mapping, as the reset handler does. -/
lemma lookup_map_currents (l : List (String × Slot)) (k : String) :
    ((l.map fun ks =>
        (ks.1,
         { ks.2 with
           current := ((ORIGINAL_INSTRUMENTS.lookup ks.1).getD ("undefined")) })).lookup k) =
      (l.lookup k).map fun slot =>
        { slot with current := ((ORIGINAL_INSTRUMENTS.lookup k).getD ("undefined")) } := by
  induction l with
  | nil => rfl
  | cons hd tl ih =>
      obtain ⟨k1, v1⟩ := hd
      by_cases h : k = k1
      · subst h
        simp [List.lookup_cons]
      · have hb : (k == k1) = false := beq_false_of_ne h
        simp [List.lookup_cons, hb, ih]

/-- Every planet key maps to its startup instrument in
`ORIGINAL_INSTRUMENTS`. -/
lemma original_lookup : ∀ p ∈ PLANETS,
    ORIGINAL_INSTRUMENTS.lookup p.key = some p.instrument := by
  decide

/-- After a fresh build from the startup map, every planet slot carries its
startup instrument. -/
lemma fresh_build_current : ∀ p ∈ PLANETS,
    (((PLANETS.map fun q =>
        (q.key,
         ({ current := ((ORIGINAL_INSTRUMENTS.lookup q.key).getD ("undefined"))
            nodes := SOUND_LIBRARY } : Slot))).lookup p.key).map Slot.current) =
      some p.instrument := by
  decide

/-! Claim theorems. -/

/-- C1: with all three angles normalized by `wrapDeg`, `crossed` returns
`true` exactly when the target lies in the clockwise half-open interval from
`prev` (exclusive) to `curr` (inclusive) — `prev < target ≤ curr` when
`prev ≤ curr`, and `target > prev ∨ target ≤ curr` when the step wrapped —
with the listed concrete evaluations, and no target crossed when
`prev = curr`. -/
theorem C1_crossed_interval :
    (∀ prev curr target : ℚ,
        crossed prev curr target = true ↔
          ((wrapDeg prev ≤ wrapDeg curr ∧
              wrapDeg prev < wrapDeg target ∧ wrapDeg target ≤ wrapDeg curr) ∨
           (wrapDeg curr < wrapDeg prev ∧
              (wrapDeg target > wrapDeg prev ∨ wrapDeg target ≤ wrapDeg curr)))) ∧
    crossed 10 20 15 = true ∧ crossed 10 20 20 = true ∧
    crossed 350 10 5 = true ∧ crossed 350 10 355 = true ∧
    crossed 10 20 10 = false ∧ crossed 350 10 20 = false ∧
    ∀ prev target : ℚ, crossed prev prev target = false := by
  refine ⟨?_, crossed_10_20_15, ?_, ?_, ?_, ?_, ?_, ?_⟩
  · intro prev curr target
    simp only [crossed]
    by_cases h : wrapDeg prev ≤ wrapDeg curr
    · rw [if_pos h]
      simp only [decide_eq_true_eq]
      constructor
      · intro hh
        exact Or.inl ⟨h, hh⟩
      · rintro (⟨-, hh⟩ | ⟨hlt, -⟩)
        · exact hh
        · exact absurd hlt (not_lt.mpr h)
    · rw [if_neg h]
      simp only [decide_eq_true_eq]
      constructor
      · intro hh
        exact Or.inr ⟨lt_of_not_le h, hh⟩
      · rintro (⟨hle, -⟩ | ⟨-, hh⟩)
        · exact absurd hle h
        · exact hh
  · rw [crossed_in_range (by norm_num) (by norm_num) (by norm_num) (by norm_num)
      (by norm_num) (by norm_num)]
    norm_num
  · rw [crossed_in_range (by norm_num) (by norm_num) (by norm_num) (by norm_num)
      (by norm_num) (by norm_num)]
    norm_num
  · rw [crossed_in_range (by norm_num) (by norm_num) (by norm_num) (by norm_num)
      (by norm_num) (by norm_num)]
    norm_num
  · rw [crossed_in_range (by norm_num) (by norm_num) (by norm_num) (by norm_num)
      (by norm_num) (by norm_num)]
    norm_num
  · rw [crossed_in_range (by norm_num) (by norm_num) (by norm_num) (by norm_num)
      (by norm_num) (by norm_num)]
    norm_num
  · intro prev target
    simp only [crossed]
    rw [if_pos le_rfl]
    simp only [decide_eq_false_iff_not, not_and]
    intro h1 h2
    exact absurd (lt_of_lt_of_le h1 h2) (lt_irrefl _)

/-- C7: `wrapDeg` is literally `((x mod 360) + 360) mod 360` over the
JavaScript remainder, its value always lies in `[0, 360)`, and it is invariant
under shifting the argument by any integer multiple of 360. -/
theorem C7_wrap_properties :
    (∀ x : ℚ, wrapDeg x = jsMod (jsMod x 360 + 360) 360) ∧
    (∀ x : ℚ, 0 ≤ wrapDeg x ∧ wrapDeg x < 360) ∧
    ∀ (x : ℚ) (k : ℤ), wrapDeg (x + 360 * k) = wrapDeg x :=
  ⟨fun _ => rfl, fun x => ⟨wrapDeg_nonneg x, wrapDeg_lt x⟩, wrapDeg_add_int_mul⟩

/-- C2: while running, a frame that finds no base timestamp records its own
timestamp (in seconds) as the base; every frame computes the angle as
`wrapDeg (baseAngle + elapsed * tempo)`; and at 30 degrees per second
(5 BPM) with two elapsed seconds from base angle 0 the computed angle
is 60. -/
theorem C2_clock_formula :
    (∀ (s : AppState) (ts : ℚ), s.running = true → s.baseTime = none →
      (frame s ts).1.baseTime = some (ts / 1000) ∧
      (frame s ts).1.angle = wrapDeg s.baseAngle) ∧
    (∀ (s : AppState) (ts t0 : ℚ), s.running = true → s.baseTime = some t0 →
      (frame s ts).1.angle =
        wrapDeg (s.baseAngle + (ts / 1000 - t0) * tempo s.bpm)) ∧
    tempo 5 = 30 ∧ (frame clockEx 2000).1.angle = 60 := by
  refine ⟨?_, ?_, by norm_num [tempo], ?_⟩
  · intro s ts _ hbt
    constructor
    · simp [frame, hbt]
    · simp [frame, hbt]
  · intro s ts t0 _ hbt
    simp [frame, hbt]
  · have e : (frame clockEx 2000).1.angle =
        wrapDeg ((0 : ℚ) + (2000 / 1000 - 0) * tempo 5) := rfl
    have e2 : ((0 : ℚ) + (2000 / 1000 - 0) * tempo 5) = 60 := by norm_num [tempo]
    rw [e, e2, wrapDeg_eq_self (by norm_num) (by norm_num)]

/-- Witness for C2 at the concrete clock state and a 2000 ms timestamp. -/
theorem C2_witness :
    (frame clockEx 2000).1.angle =
      wrapDeg (clockEx.baseAngle + (2000 / 1000 - 0) * tempo clockEx.bpm) :=
  C2_clock_formula.2.1 clockEx 2000 0 rfl rfl

/-- C3: changing the tempo while running keeps the recorded base timestamp and
base angle, and the next frame applies the new tempo to the whole elapsed
interval since that base. -/
theorem C3_tempo_rescale : ∀ (s : AppState) (v ts t0 : ℚ), s.running = true →
    s.baseTime = some t0 →
    (setBpm s v).baseTime = some t0 ∧ (setBpm s v).baseAngle = s.baseAngle ∧
    (frame (setBpm s v) ts).1.angle =
      wrapDeg (s.baseAngle + (ts / 1000 - t0) * tempo v) := by
  intro s v ts t0 _ hbt
  refine ⟨by simp [setBpm, hbt], rfl, ?_⟩
  simp [frame, setBpm, hbt]

/-- Witness for C3: a tempo change at the concrete clock state. -/
theorem C3_witness :
    (frame (setBpm clockEx 60) 2000).1.angle =
      wrapDeg (clockEx.baseAngle + (2000 / 1000 - 0) * tempo 60) :=
  (C3_tempo_rescale clockEx 60 2000 0 rfl rfl).2.2

/-- C4: pausing at displayed angle `A` freezes `A` into the base angle and
stops the transport; resuming clears the base timestamp and rebases the
previous and base angles to `A`, and the first post-resume frame records its
own timestamp and computes angle `A` — the sweep continues with no jump. -/
theorem C4_pause_resume : ∀ (s : AppState) (A : ℚ), s.running = true →
    s.angle = A → 0 ≤ A → A < 360 →
    (handlePlayPause s).running = false ∧
    (handlePlayPause s).baseAngle = A ∧
    (handlePlayPause (handlePlayPause s)).running = true ∧
    (handlePlayPause (handlePlayPause s)).baseTime = none ∧
    (handlePlayPause (handlePlayPause s)).baseAngle = A ∧
    (handlePlayPause (handlePlayPause s)).prevAngle = A ∧
    ∀ ts : ℚ,
      (frame (handlePlayPause (handlePlayPause s)) ts).1.baseTime =
        some (ts / 1000) ∧
      (frame (handlePlayPause (handlePlayPause s)) ts).1.angle = A := by
  intro s A hrun hang hA0 hA1
  have e1 : handlePlayPause s = { s with baseAngle := A, running := false } := by
    simp [handlePlayPause, hrun, hang]
  have e2 : handlePlayPause (handlePlayPause s) =
      { buildGraph { s with baseAngle := A, running := false } with
        baseTime := none
        prevAngle := (buildGraph { s with baseAngle := A, running := false }).baseAngle
        running := true } := by
    rw [e1]
    simp [handlePlayPause]
  refine ⟨by rw [e1], by rw [e1], by rw [e2], by rw [e2], ?_, ?_, ?_⟩
  · rw [e2]
    simp [buildGraph_baseAngle]
  · rw [e2]
    simp [buildGraph_baseAngle]
  · intro ts
    constructor
    · rw [e2]
      simp [frame]
    · rw [e2]
      have e3 : (buildGraph { s with baseAngle := A, running := false }).baseAngle = A := by
        simp [buildGraph_baseAngle]
      simp [frame, e3]
      exact wrapDeg_eq_self hA0 hA1

/-- Witness for C4: pause immediately after the first start (angle 0) and
resume. -/
theorem C4_witness :
    (handlePlayPause runningEx).running = false ∧
    (frame (handlePlayPause (handlePlayPause runningEx)) 1000).1.angle = 0 := by
  have h := C4_pause_resume runningEx 0 rfl rfl le_rfl (by norm_num)
  exact ⟨h.1, (h.2.2.2.2.2.2 1000).2⟩

/-- C5 counterexample: pressing Reset while running does NOT stop the
transport — in the concrete running state obtained by pressing Play once, the
running flag is still `true` after `reset`, refuting the claimed
`Running --reset--> Stopped` transition. -/
theorem C5_counterexample :
    runningEx.running = true ∧ (reset runningEx).running = true := by
  constructor
  · rfl
  · rw [reset_running]
    rfl

/-- C5 (amended): invoking reset while the transport is Running leaves it
Running (the running flag is unchanged), with the angle forced to 0
(`angle = prevAngle = baseAngle = 0`) and the base timestamp cleared. -/
theorem C5_reset_keeps_running : ∀ s : AppState, s.running = true →
    (reset s).running = true ∧ (reset s).angle = 0 ∧ (reset s).prevAngle = 0 ∧
    (reset s).baseAngle = 0 ∧ (reset s).baseTime = none := by
  intro s h
  exact ⟨by rw [reset_running, h], reset_angle s, reset_prevAngle s,
    reset_baseAngle s, reset_baseTime_of_running s h⟩

/-- Witness for the amended C5 at the concrete running state. -/
theorem C5_witness :
    runningEx.running = true ∧ (reset runningEx).angle = 0 ∧
    (reset runningEx).baseTime = none := by
  have h := C5_reset_keeps_running runningEx rfl
  exact ⟨rfl, h.2.1, h.2.2.2.2⟩

/-- C6: while the audio graph is built, a frame's trigger invocations are
exactly the dispatcher's output on the fixed chart; the dispatcher invokes
the trigger exactly once (no duplicates, membership exactly for crossed
bodies) with `(body, index)`; and two bodies at the same crossed angle both
fire, each exactly once. -/
theorem C6_dispatch_triggers :
    (∀ (s : AppState) (ts : ℚ), s.built = true →
      (frame s ts).2 = dispatch PLANETS s.prevAngle (frame s ts).1.angle) ∧
    (∀ (chart : List Planet) (prev curr : ℚ),
      (dispatch chart prev curr).Nodup ∧
      ∀ (p : Planet) (i : ℕ),
        (p, i) ∈ dispatch chart prev curr ↔
          chart.get? i = some p ∧ crossed prev curr p.deg = true) ∧
    ∀ (a b : Planet) (prev curr : ℚ), a.deg = b.deg →
      crossed prev curr a.deg = true →
      dispatch [a, b] prev curr = [(a, 0), (b, 1)] := by
  refine ⟨?_, ?_, ?_⟩
  · intro s ts hb
    simp [frame, hb]
  · intro chart prev curr
    constructor
    · have h1 : chart.enum.Nodup :=
        List.Nodup.of_map Prod.fst (List.nodup_enum_map_fst chart)
      have h2 := h1.filter (fun ip => crossed prev curr ip.2.deg)
      refine h2.map ?_
      intro x y hxy
      cases x
      cases y
      simpa [Prod.ext_iff, and_comm] using hxy
    · intro p i
      simp only [dispatch, List.mem_map, List.mem_filter]
      constructor
      · rintro ⟨⟨j, q⟩, ⟨hmem, hq⟩, heq⟩
        obtain ⟨rfl, rfl⟩ : q = p ∧ j = i := by
          simpa [Prod.ext_iff] using heq
        refine ⟨?_, hq⟩
        rw [List.get?_eq_getElem?]
        exact List.mk_mem_enum_iff_getElem?.mp hmem
      · rintro ⟨hget, hq⟩
        refine ⟨(i, p), ⟨?_, hq⟩, rfl⟩
        rw [List.get?_eq_getElem?] at hget
        exact List.mk_mem_enum_iff_getElem?.mpr hget
  · intro a b prev curr hdeg hc
    have hcb : crossed prev curr b.deg = true := by rw [← hdeg]; exact hc
    simp [dispatch, List.enum, List.enumFrom, hc, hcb]

/-- Witness for C6: two sample bodies at 15 degrees, crossed by the step from
10 to 20, both fire in order. -/
theorem C6_witness :
    dispatch [planetA, planetB] 10 20 = [(planetA, 0), (planetB, 1)] :=
  C6_dispatch_triggers.2.2 planetA planetB 10 20 rfl crossed_10_20_15

/-- C9: a trigger call for a body with no synth slot, or whose slot has no
prebuilt node for its current instrument, schedules nothing; and the frame
update neither changes the synths map nor depends on it for the sweep
angle. -/
theorem C9_trigger_skips :
    (∀ (synths : List (String × Slot)) (p : Planet) (idx : ℕ),
      synths.lookup p.key = none → triggerPlanet synths p idx = []) ∧
    (∀ (synths : List (String × Slot)) (p : Planet) (idx : ℕ) (slot : Slot),
      synths.lookup p.key = some slot →
      slot.nodes.contains slot.current = false →
      triggerPlanet synths p idx = []) ∧
    (∀ (s : AppState) (ts : ℚ), (frame s ts).1.synths = s.synths) ∧
    ∀ (s : AppState) (ts : ℚ) (other : List (String × Slot)),
      (frame { s with synths := other } ts).1.angle = (frame s ts).1.angle := by
  refine ⟨?_, ?_, fun s ts => rfl, fun s ts other => rfl⟩
  · intro synths p idx h
    simp [triggerPlanet, h]
  · intro synths p idx slot h1 h2
    simp only [triggerPlanet, h1]
    rw [h2]
    simp

/-- Witness for C9: an empty synths map silently skips the Sun trigger. -/
theorem C9_witness : triggerPlanet [] sunPlanet 0 = [] :=
  C9_trigger_skips.1 [] sunPlanet 0 rfl

/-- C10: beyond zeroing the angles, reset restores 60 BPM (tempo 360),
restores the startup instrument mapping and every existing slot's current
instrument, restores the four FX wet levels, leaves the audio graph built,
and leaves the running flag unchanged. -/
theorem C10_reset_effects : ∀ s : AppState,
    (reset s).bpm = 60 ∧ tempo (reset s).bpm = 360 ∧
    (reset s).instrumentMap = ORIGINAL_INSTRUMENTS ∧
    (∀ p ∈ PLANETS, ∀ slot : Slot,
      (reset s).synths.lookup p.key = some slot → slot.current = p.instrument) ∧
    (reset s).distWet = 0.15 ∧ (reset s).filtWet = 0.10 ∧
    (reset s).delWet = 0.18 ∧ (reset s).revWet = 0.12 ∧
    (reset s).built = true ∧ (reset s).running = s.running := by
  intro s
  refine ⟨reset_bpm s, by rw [reset_bpm]; norm_num [tempo], reset_instrumentMap s,
    ?_, reset_distWet s, reset_filtWet s, reset_delWet s, reset_revWet s,
    reset_built s, reset_running s⟩
  intro p hp slot hslot
  rw [reset_synths] at hslot
  by_cases hb : s.built = true
  · rw [if_pos hb, lookup_map_currents] at hslot
    cases hl : s.synths.lookup p.key with
    | none => rw [hl] at hslot; simp at hslot
    | some slot0 =>
        rw [hl] at hslot
        rw [Option.map_some'] at hslot
        obtain rfl := Option.some.inj hslot
        simp [original_lookup p hp]
  · rw [if_neg hb] at hslot
    have h2 := fresh_build_current p hp
    rw [hslot] at h2
    simpa using h2

/-- Witness for C10 at the initial state and the Sun body. -/
theorem C10_witness :
    (reset initialState).bpm = 60 ∧
    ({ current := ("lead"), nodes := SOUND_LIBRARY } : Slot).current =
      sunPlanet.instrument := by
  have h := C10_reset_effects initialState
  refine ⟨h.1, ?_⟩
  exact h.2.2.2.1 sunPlanet (List.Mem.head _)
    { current := ("lead"), nodes := SOUND_LIBRARY } rfl

/-- Angles invariant: every reachable state keeps the displayed, previous and
base angles in `[0, 360)`. -/
lemma reachable_angles : ∀ s : AppState, Reachable s →
    (0 ≤ s.angle ∧ s.angle < 360) ∧ (0 ≤ s.prevAngle ∧ s.prevAngle < 360) ∧
    (0 ≤ s.baseAngle ∧ s.baseAngle < 360) := by
  intro s h
  induction h with
  | init => norm_num [initialState]
  | step hr hstep ih =>
      rename_i s1 t1
      cases hstep with
      | frame ts hrun =>
          exact ⟨⟨wrapDeg_nonneg _, wrapDeg_lt _⟩, ⟨wrapDeg_nonneg _, wrapDeg_lt _⟩,
            ih.2.2⟩
      | playPause =>
          by_cases hrb : s1.running = true
          · have e : handlePlayPause s1 = { s1 with baseAngle := s1.angle, running := false } := by
              simp [handlePlayPause, hrb]
            rw [e]
            exact ⟨ih.1, ih.2.1, ih.1⟩
          · have hr2 : s1.running = false := by simpa using hrb
            have e : handlePlayPause s1 =
                { buildGraph s1 with
                  baseTime := none
                  prevAngle := (buildGraph s1).baseAngle
                  running := true } := by
              simp [handlePlayPause, hr2]
            rw [e]
            refine ⟨?_, ?_, ?_⟩
            · simpa [buildGraph_angle] using ih.1
            · simpa [buildGraph_baseAngle] using ih.2.2
            · simpa [buildGraph_baseAngle] using ih.2.2
      | reset =>
          refine ⟨?_, ?_, ?_⟩ <;>
            simp [reset_angle, reset_prevAngle, reset_baseAngle]
      | setBpm v => exact ih
      | setDistWet v => exact ih
      | setFiltWet v => exact ih
      | setDelWet v => exact ih
      | setRevWet v => exact ih

/-- C8: in every reachable state the current and previous angle are
normalized to `[0, 360)`. -/
theorem C8_angles_normalized : ∀ s : AppState, Reachable s →
    (0 ≤ s.angle ∧ s.angle < 360) ∧ (0 ≤ s.prevAngle ∧ s.prevAngle < 360) :=
  fun s h => ⟨(reachable_angles s h).1, (reachable_angles s h).2.1⟩

/-- Witness for C8 at the (reachable) initial state. -/
theorem C8_witness :
    (0 ≤ initialState.angle ∧ initialState.angle < 360) ∧
    (0 ≤ initialState.prevAngle ∧ initialState.prevAngle < 360) :=
  C8_angles_normalized initialState Reachable.init

end AstroSonar
